import Mathlib

/-!
Verification development for the feature-derivation step (`prep_df`) of the
workshop-scaling-ml notebooks.  The source is

    def prep_df(taxi_df):
        df = taxi_df[taxi_df.fare_amount > 0][raw_features].copy()  # avoid divide-by-zero
        df[label] = df.tip_amount / df.fare_amount
        df['pickup_weekday'] = df.tpep_pickup_datetime.dt.weekday
        df['pickup_weekofyear'] = df.tpep_pickup_datetime.dt.weekofyear
        df['pickup_hour'] = df.tpep_pickup_datetime.dt.hour
        df['pickup_week_hour'] = (df.pickup_weekday * 24) + df.pickup_hour
        df['pickup_minute'] = df.tpep_pickup_datetime.dt.minute
        df = df[features + [label]].astype(float).fillna(-1)
        return df

Embedding choices:
* A dataframe is a list of rows, in order; row filtering (`taxi_df[mask]`) is
  `List.filter` and the per-row column assignments become per-row functions,
  since every operation in the source is row-wise.
* Numeric cells are exact rationals `ℚ` (the model of the source's floats);
  a missing value (pandas `NaN` / `NaT`) is `none` of an `Option`, and the
  pandas rules are kept: `NaN > 0` is false, arithmetic on `NaN` gives `NaN`,
  `.fillna(-1)` turns `none` into `-1`.
* A pickup timestamp is a civil date-time; the pandas `.dt` accessors
  (`weekday` with Monday = 0, ISO `weekofyear`, `hour`, `minute`) are
  reproduced from the civil fields.
* The output of `prep_df` keeps its column names: each output row is a list of
  (column-name, value) pairs in the order `features + [label]` that the final
  selection imposes.
-/

namespace Taxi

/-- A parsed pickup timestamp (`tpep_pickup_datetime`): a civil date-time. -/
structure Timestamp where
  year : Int
  month : Nat
  day : Nat
  hour : Nat
  minute : Nat
deriving DecidableEq, Repr

/-- Days since 1970-01-01 of the timestamp's civil date (the standard
days-from-civil computation used by date libraries). -/
def Timestamp.daysFromCivil (t : Timestamp) : Int :=
  let y : Int := if t.month ≤ 2 then t.year - 1 else t.year
  let era : Int := y.fdiv 400
  let yoe : Int := y - era * 400
  let mp : Int := ((t.month : Int) + 9) % 12
  let doy : Int := (153 * mp + 2) / 5 + (t.day : Int) - 1
  let doe : Int := yoe * 365 + yoe / 4 - yoe / 100 + doy
  era * 146097 + doe - 719468

/-- The pandas `.dt.weekday` accessor: day of week with Monday = 0 and
Sunday = 6.  1970-01-01 was a Thursday (weekday 3). -/
def Timestamp.weekday (t : Timestamp) : Nat :=
  ((t.daysFromCivil + 3).emod 7).toNat

/-- Gregorian leap-year test. -/
def isLeap (y : Int) : Bool :=
  (y.emod 4 == 0 && y.emod 100 != 0) || y.emod 400 == 0

/-- Length in days of month `m` (1-based) of a (non-)leap year. -/
def monthDays (leap : Bool) (m : Nat) : Nat :=
  match m with
  | 1 => 31
  | 2 => if leap then 29 else 28
  | 3 => 31
  | 4 => 30
  | 5 => 31
  | 6 => 30
  | 7 => 31
  | 8 => 31
  | 9 => 30
  | 10 => 31
  | 11 => 30
  | 12 => 31
  | _ => 0

/-- Days in the year strictly before month `m` (1-based). -/
def daysBeforeMonth (leap : Bool) (m : Nat) : Nat :=
  (List.range m).foldl (fun acc i => acc + monthDays leap i) 0

/-- 1-based ordinal day of the year of the timestamp's date. -/
def Timestamp.dayOfYear (t : Timestamp) : Nat :=
  daysBeforeMonth (isLeap t.year) t.month + t.day

/-- ISO day of week: Monday = 1 … Sunday = 7. -/
def Timestamp.isoWeekday (t : Timestamp) : Nat :=
  t.weekday + 1

/-- Weekday of 31 December of year `y` (helper of the ISO week-count rule). -/
def pCal (y : Int) : Int :=
  (y + y.fdiv 4 - y.fdiv 100 + y.fdiv 400).emod 7

/-- Number of ISO weeks (52 or 53) in year `y`. -/
def weeksInYear (y : Int) : Int :=
  if pCal y == 4 || pCal (y - 1) == 3 then 53 else 52

/-- The pandas `.dt.weekofyear` accessor: the ISO-8601 week number of the
timestamp's date. -/
def Timestamp.weekofyear (t : Timestamp) : Int :=
  let w : Int := ((t.dayOfYear : Int) - (t.isoWeekday : Int) + 10).fdiv 7
  if w < 1 then weeksInYear (t.year - 1)
  else if w > weeksInYear t.year then 1
  else w

/-- One raw trip row, restricted to the columns `prep_df` reads
(`raw_features`).  `none` models a missing value: pandas `NaT` for the
timestamp, `NaN` for the numeric cells. -/
structure TaxiRow where
  tpep_pickup_datetime : Option Timestamp
  passenger_count : Option ℚ
  tip_amount : Option ℚ
  fare_amount : Option ℚ
deriving DecidableEq, Repr

/-- The source's `raw_features` list. -/
def raw_features : List String :=
  ["tpep_pickup_datetime", "passenger_count", "tip_amount", "fare_amount"]

/-- The source's `features` list. -/
def features : List String :=
  ["pickup_weekday", "pickup_weekofyear", "pickup_hour",
   "pickup_week_hour", "pickup_minute", "passenger_count"]

/-- The source's `label` name. -/
def label : String := "tip_fraction"

/-- The boolean row mask `taxi_df.fare_amount > 0`.  In pandas a missing
(`NaN`) fare compares false, so it is excluded too. -/
def farePos (r : TaxiRow) : Bool :=
  match r.fare_amount with
  | some f => decide (0 < f)
  | none => false

/-- Missing-value-propagating division: `df.tip_amount / df.fare_amount`
is `NaN` when either operand is `NaN`. -/
def optDiv : Option ℚ → Option ℚ → Option ℚ
  | some a, some b => some (a / b)
  | _, _ => none

/-- The `.fillna(-1)` step on one cell: a present value stays, a missing
value becomes the sentinel `-1`. -/
def fillna : Option ℚ → ℚ
  | some v => v
  | none => -1

/-- Column assignment `df[label] = df.tip_amount / df.fare_amount`, per row. -/
def tip_fraction_col (r : TaxiRow) : Option ℚ :=
  optDiv r.tip_amount r.fare_amount

/-- Column assignment `df['pickup_weekday'] = ....dt.weekday`, per row
(`NaT` gives `NaN`). -/
def pickup_weekday_col (r : TaxiRow) : Option ℚ :=
  r.tpep_pickup_datetime.map fun t => (t.weekday : ℚ)

/-- Column assignment `df['pickup_weekofyear'] = ....dt.weekofyear`, per row. -/
def pickup_weekofyear_col (r : TaxiRow) : Option ℚ :=
  r.tpep_pickup_datetime.map fun t => (t.weekofyear : ℚ)

/-- Column assignment `df['pickup_hour'] = ....dt.hour`, per row. -/
def pickup_hour_col (r : TaxiRow) : Option ℚ :=
  r.tpep_pickup_datetime.map fun t => (t.hour : ℚ)

/-- Column assignment
`df['pickup_week_hour'] = (df.pickup_weekday * 24) + df.pickup_hour`, per
row; `NaN` in either operand propagates. -/
def pickup_week_hour_col (r : TaxiRow) : Option ℚ :=
  match pickup_weekday_col r, pickup_hour_col r with
  | some w, some h => some (w * 24 + h)
  | _, _ => none

/-- Column assignment `df['pickup_minute'] = ....dt.minute`, per row. -/
def pickup_minute_col (r : TaxiRow) : Option ℚ :=
  r.tpep_pickup_datetime.map fun t => (t.minute : ℚ)

/-- The per-row effect of `prep_df` past the filter: the column
assignments, the final selection `df[features + [label]]` (which fixes the
column names and their order), `.astype(float)` (cells are already modelled
as rationals) and `.fillna(-1)`. -/
def prep_row (r : TaxiRow) : List (String × ℚ) :=
  [("pickup_weekday", fillna (pickup_weekday_col r)),
   ("pickup_weekofyear", fillna (pickup_weekofyear_col r)),
   ("pickup_hour", fillna (pickup_hour_col r)),
   ("pickup_week_hour", fillna (pickup_week_hour_col r)),
   ("pickup_minute", fillna (pickup_minute_col r)),
   ("passenger_count", fillna r.passenger_count),
   ("tip_fraction", fillna (tip_fraction_col r))]

/-- The source's `prep_df`: keep the rows whose fare amount is strictly
positive (in their original order), then derive the feature record of each
surviving row. -/
def prep_df (taxi_df : List TaxiRow) : List (List (String × ℚ)) :=
  (taxi_df.filter farePos).map prep_row

/-- The call `taxi_feat = prep_df(taxi)` seen from the caller: the function
body works on `taxi_df[...][raw_features].copy()`, so all seven column
assignments mutate only that copy and the caller's table comes back as it
went in.  The pair returns the produced output together with the caller's
table after the call. -/
def prep_df_call (taxi_df : List TaxiRow) :
    List (List (String × ℚ)) × List TaxiRow :=
  (prep_df taxi_df, taxi_df)

end Taxi
namespace Taxi

/-- The spec's worked example row: fare 10, tip 2, pickup 2019-01-07 13:45. -/
def exampleRow : TaxiRow :=
  { tpep_pickup_datetime := some ⟨2019, 1, 7, 13, 45⟩
    passenger_count := some 1
    tip_amount := some 2
    fare_amount := some 10 }

/-- A row with a non-positive fare amount, for the filter claims. -/
def badRow : TaxiRow :=
  { tpep_pickup_datetime := some ⟨2019, 1, 7, 13, 45⟩
    passenger_count := some 1
    tip_amount := some 2
    fare_amount := some (-3) }

/-- A positive-fare row whose pickup timestamp failed to parse (pandas NaT). -/
def natRow : TaxiRow :=
  { tpep_pickup_datetime := none
    passenger_count := some 1
    tip_amount := some 2
    fare_amount := some 10 }

/-- A positive-fare row with every other raw cell missing. -/
def noneRow : TaxiRow :=
  { tpep_pickup_datetime := none
    passenger_count := none
    tip_amount := none
    fare_amount := some 5 }

lemma farePos_exampleRow : farePos exampleRow = true := by
  norm_num [farePos, exampleRow]

lemma farePos_natRow : farePos natRow = true := by
  norm_num [farePos, natRow]

lemma farePos_noneRow : farePos noneRow = true := by
  norm_num [farePos, noneRow]

lemma mem_prep_df_of_mem (df : List TaxiRow) (r : TaxiRow)
    (hmem : r ∈ df) (hfp : farePos r = true) : prep_row r ∈ prep_df df :=
  List.mem_map_of_mem _ (List.mem_filter.mpr ⟨hmem, hfp⟩)

/-- C1 test: label column of any surviving row with present tip and fare. -/
theorem prep_df_label_div (df : List TaxiRow) (r : TaxiRow) (t f : ℚ)
    (hmem : r ∈ df) (hf : r.fare_amount = some f) (hpos : 0 < f)
    (ht : r.tip_amount = some t) :
    prep_row r ∈ prep_df df ∧
    (prep_row r).lookup "tip_fraction" = some (t / f) := by
  constructor
  · exact mem_prep_df_of_mem df r hmem (by simp [farePos, hf, hpos])
  · simp [prep_row, List.lookup, tip_fraction_col, optDiv, fillna, hf, ht]

theorem prep_df_label_div_witness :
    prep_row exampleRow ∈ prep_df [exampleRow] ∧
    (prep_row exampleRow).lookup "tip_fraction" = some ((2 : ℚ) / 10) :=
  prep_df_label_div [exampleRow] exampleRow 2 10 (List.mem_singleton.mpr rfl)
    rfl (by norm_num) rfl

/-- C2 test: non-positive-fare rows drop out; positive-fare rows survive 1:1. -/
theorem prep_df_excludes_nonpos :
    (∀ (l1 l2 : List TaxiRow) (r : TaxiRow) (f : ℚ),
        r.fare_amount = some f → f ≤ 0 →
        prep_df (l1 ++ r :: l2) = prep_df (l1 ++ l2)) ∧
    (∀ df : List TaxiRow, (prep_df df).length = df.countP farePos) := by
  constructor
  · intro l1 l2 r f hf hle
    have hfp : farePos r = false := by
      simp [farePos, hf]
      exact hle
    simp [prep_df, List.filter_append, hfp]
  · intro df
    simp [prep_df, List.countP_eq_length_filter]

theorem prep_df_excludes_nonpos_witness :
    prep_df [badRow] = prep_df [] :=
  prep_df_excludes_nonpos.1 [] [] badRow (-3) rfl (by norm_num)

/-- C3 test: every row the label is computed on has a present, strictly
positive (hence nonzero) fare amount. -/
theorem prep_df_no_div_by_zero (df : List TaxiRow) (r : TaxiRow)
    (h : r ∈ df.filter farePos) :
    ∃ f : ℚ, r.fare_amount = some f ∧ 0 < f ∧ f ≠ 0 ∧
      prep_row r ∈ prep_df df := by
  obtain ⟨hmem, hfp⟩ := List.mem_filter.mp h
  match hfa : r.fare_amount with
  | none => simp [farePos, hfa] at hfp
  | some f =>
      have hpos : 0 < f := by
        have := hfp
        rw [farePos, hfa] at this
        exact of_decide_eq_true this
      exact ⟨f, rfl, hpos, ne_of_gt hpos, List.mem_map_of_mem _ h⟩

theorem prep_df_no_div_by_zero_witness :
    ∃ f : ℚ, exampleRow.fare_amount = some f ∧ 0 < f ∧ f ≠ 0 ∧
      prep_row exampleRow ∈ prep_df [exampleRow] :=
  prep_df_no_div_by_zero [exampleRow] exampleRow
    (List.mem_filter.mpr ⟨List.mem_singleton.mpr rfl, farePos_exampleRow⟩)

end Taxi
namespace Taxi

lemma prep_row_natRow_cells :
    (prep_row natRow).lookup "pickup_weekday" = some (-1) ∧
    (prep_row natRow).lookup "pickup_hour" = some (-1) ∧
    (prep_row natRow).lookup "pickup_week_hour" = some (-1) := by
  refine ⟨?_, ?_, ?_⟩ <;>
    simp [prep_row, List.lookup, natRow, pickup_weekday_col, pickup_hour_col,
      pickup_week_hour_col, fillna]

/-- C4 counterexample: a positive-fare row whose pickup timestamp is missing
(pandas NaT) yields the output cells pickup_weekday = -1, pickup_hour = -1,
pickup_week_hour = -1, and -1 is not (-1) * 24 + (-1). -/
theorem week_hour_missing_ts_cex :
    prep_row natRow ∈ prep_df [natRow] ∧
    (prep_row natRow).lookup "pickup_weekday" = some (-1) ∧
    (prep_row natRow).lookup "pickup_hour" = some (-1) ∧
    (prep_row natRow).lookup "pickup_week_hour" = some (-1) ∧
    ((-1 : ℚ) ≠ (-1) * 24 + (-1)) := by
  refine ⟨mem_prep_df_of_mem _ _ (List.mem_singleton.mpr rfl) farePos_natRow,
    ?_, ?_, ?_, by norm_num⟩ <;>
    simp [prep_row, List.lookup, natRow, pickup_weekday_col, pickup_hour_col,
      pickup_week_hour_col, fillna]

/-- C4 amended: on every output row coming from a row with a present pickup
timestamp, pickup_week_hour = pickup_weekday * 24 + pickup_hour. -/
theorem week_hour_eq_weekday_mul_24_add_hour (df : List TaxiRow) (r : TaxiRow)
    (hmem : r ∈ df) (hfp : farePos r = true) (ts : Timestamp)
    (ht : r.tpep_pickup_datetime = some ts) :
    prep_row r ∈ prep_df df ∧
    ∃ w h : ℚ,
      (prep_row r).lookup "pickup_weekday" = some w ∧
      (prep_row r).lookup "pickup_hour" = some h ∧
      (prep_row r).lookup "pickup_week_hour" = some (w * 24 + h) := by
  refine ⟨mem_prep_df_of_mem df r hmem hfp, (ts.weekday : ℚ), (ts.hour : ℚ),
    ?_, ?_, ?_⟩ <;>
    simp [prep_row, List.lookup, pickup_weekday_col, pickup_hour_col,
      pickup_week_hour_col, ht, fillna]

theorem week_hour_eq_weekday_mul_24_add_hour_witness :
    prep_row exampleRow ∈ prep_df [exampleRow] ∧
    ∃ w h : ℚ,
      (prep_row exampleRow).lookup "pickup_weekday" = some w ∧
      (prep_row exampleRow).lookup "pickup_hour" = some h ∧
      (prep_row exampleRow).lookup "pickup_week_hour" = some (w * 24 + h) :=
  week_hour_eq_weekday_mul_24_add_hour [exampleRow] exampleRow
    (List.mem_singleton.mpr rfl) farePos_exampleRow ⟨2019, 1, 7, 13, 45⟩ rfl

/-- C5 test: every one of the seven output columns of every output row holds
a (rational, the model of float) value, and a missing input cell surfaces as
the sentinel -1 in the cells derived from it. -/
theorem prep_df_no_cell_unset :
    (∀ (df : List TaxiRow), ∀ row ∈ prep_df df, ∀ c ∈ features ++ [label],
        (row.lookup c).isSome = true) ∧
    (∀ r : TaxiRow, r.tpep_pickup_datetime = none →
        (prep_row r).lookup "pickup_weekday" = some (-1) ∧
        (prep_row r).lookup "pickup_weekofyear" = some (-1) ∧
        (prep_row r).lookup "pickup_hour" = some (-1) ∧
        (prep_row r).lookup "pickup_week_hour" = some (-1) ∧
        (prep_row r).lookup "pickup_minute" = some (-1)) ∧
    (∀ r : TaxiRow, r.passenger_count = none →
        (prep_row r).lookup "passenger_count" = some (-1)) ∧
    (∀ r : TaxiRow, r.tip_amount = none →
        (prep_row r).lookup "tip_fraction" = some (-1)) := by
  refine ⟨?_, ?_, ?_, ?_⟩
  · intro df row hrow c hc
    obtain ⟨r, hr, rfl⟩ := List.mem_map.mp hrow
    simp [features, label] at hc
    rcases hc with h | h | h | h | h | h | h <;> subst h <;>
      simp [prep_row, List.lookup]
  · intro r hts
    refine ⟨?_, ?_, ?_, ?_, ?_⟩ <;>
      simp [prep_row, List.lookup, pickup_weekday_col, pickup_weekofyear_col,
        pickup_hour_col, pickup_week_hour_col, pickup_minute_col, hts, fillna]
  · intro r hpc
    simp [prep_row, List.lookup, hpc, fillna]
  · intro r htip
    simp [prep_row, List.lookup, tip_fraction_col, optDiv, htip, fillna]

theorem prep_df_no_cell_unset_witness :
    ((prep_row noneRow).lookup "pickup_weekday").isSome = true ∧
    (prep_row noneRow).lookup "pickup_minute" = some (-1) ∧
    (prep_row noneRow).lookup "passenger_count" = some (-1) ∧
    (prep_row noneRow).lookup "tip_fraction" = some (-1) :=
  ⟨prep_df_no_cell_unset.1 [noneRow] (prep_row noneRow)
      (mem_prep_df_of_mem _ _ (List.mem_singleton.mpr rfl) farePos_noneRow)
      "pickup_weekday" (by simp [features]),
    (prep_df_no_cell_unset.2.1 noneRow rfl).2.2.2.2,
    prep_df_no_cell_unset.2.2.1 noneRow rfl,
    prep_df_no_cell_unset.2.2.2 noneRow rfl⟩

/-- C6 test: the column list of every output row is exactly
features + [label]. -/
theorem prep_df_columns_exact (df : List TaxiRow) (row : List (String × ℚ))
    (h : row ∈ prep_df df) : row.map Prod.fst = features ++ [label] := by
  obtain ⟨r, hr, rfl⟩ := List.mem_map.mp h
  rfl

theorem prep_df_columns_exact_witness :
    (prep_row exampleRow).map Prod.fst = features ++ [label] :=
  prep_df_columns_exact [exampleRow] (prep_row exampleRow)
    (mem_prep_df_of_mem _ _ (List.mem_singleton.mpr rfl) farePos_exampleRow)

/-- C7 test: prep_df is a pure function of its input table — it sends equal
inputs to equal outputs, and two applications to the same table agree. -/
theorem prep_df_pure_deterministic (df1 df2 : List TaxiRow) (h : df1 = df2) :
    prep_df df1 = prep_df df2 ∧ prep_df df1 = prep_df df1 :=
  ⟨by rw [h], rfl⟩

theorem prep_df_pure_deterministic_witness :
    prep_df [exampleRow] = prep_df [exampleRow] :=
  (prep_df_pure_deterministic [exampleRow] [exampleRow] rfl).1

/-- C8 test: the spec's worked example, evaluated. -/
theorem prep_df_example_monday :
    ∃ row, prep_df [exampleRow] = [row] ∧
      row.lookup label = some 0.2 ∧
      row.lookup "pickup_weekday" = some 0 ∧
      row.lookup "pickup_hour" = some 13 ∧
      row.lookup "pickup_week_hour" = some 13 ∧
      row.lookup "pickup_minute" = some 45 := by
  have hw : Timestamp.weekday ⟨2019, 1, 7, 13, 45⟩ = 0 := by decide
  refine ⟨prep_row exampleRow, ?_, ?_, ?_, ?_, ?_, ?_⟩
  · simp [prep_df, List.filter, farePos_exampleRow]
  all_goals
    simp [prep_row, List.lookup, label, exampleRow, tip_fraction_col, optDiv,
      pickup_weekday_col, pickup_hour_col, pickup_week_hour_col,
      pickup_minute_col, fillna, hw]
  norm_num

/-- C9 test: the caller's table is unchanged by the call (the body mutates
only its own copy), and the value produced is prep_df of the input. -/
theorem prep_df_frame_input_unchanged (taxi_df : List TaxiRow) :
    (prep_df_call taxi_df).2 = taxi_df ∧
    (prep_df_call taxi_df).1 = prep_df taxi_df :=
  ⟨rfl, rfl⟩

/-- C10 test: output length matches the filtered input, and the i-th output
row is the feature record of the i-th positive-fare input row. -/
theorem prep_df_preserves_order (df : List TaxiRow) :
    (prep_df df).length = (df.filter farePos).length ∧
    ∀ (i : Nat) (h1 : i < (prep_df df).length)
      (h2 : i < (df.filter farePos).length),
      (prep_df df).get ⟨i, h1⟩ = prep_row ((df.filter farePos).get ⟨i, h2⟩) := by
  refine ⟨by simp [prep_df], ?_⟩
  intro i h1 h2
  simp [prep_df]

theorem prep_df_preserves_order_witness :
    (prep_df [exampleRow]).length = ([exampleRow].filter farePos).length ∧
    (prep_df [exampleRow]).get ⟨0, by simp [prep_df, List.filter, farePos_exampleRow]⟩ =
      prep_row (([exampleRow].filter farePos).get ⟨0, by simp [List.filter, farePos_exampleRow]⟩) :=
  ⟨(prep_df_preserves_order [exampleRow]).1,
    (prep_df_preserves_order [exampleRow]).2 0
      (by simp [prep_df, List.filter, farePos_exampleRow])
      (by simp [List.filter, farePos_exampleRow])⟩

end Taxi
